import Mathlib

/-!
# Verification of the mkxp-z bitmap core (bitmap.cpp)

A shallow embedding of the data model and the operations of `bitmap.cpp`
(the `Bitmap` / `BitmapPrivate` classes and their helpers), together with
theorems settling the frozen claims about the natural-language spec.

Machine integers of the C++ source are modelled as `Int`; the source only
ever handles pixel coordinates and sizes far below the `int` overflow
range, so the embedding carries no `% 2^32` reductions.  `float`/`double`
quantities are modelled as `Rat`; every concrete value appearing in the
theorems below is exactly representable, and the divisions involved are
noted at their use sites.
-/

namespace MkxpBitmap

/-- From `util.h` (declared outside the provided sources).
Modelled from the spec: `clamp` restricts a value to a closed range,
as used all through `bitmap.cpp` (`clamp(frame, 0, n)`,
`clamp(opacity, 0, 255)`, ...). -/
def clampI (value lo hi : Int) : Int :=
  if value < lo then lo else if value > hi then hi else value

/-- From `util.h`.  Modelled from the spec: rational-valued `clamp`,
used for `clamp<float>` / `clamp<double>` calls in the source. -/
def clampQ (value lo hi : ℚ) : ℚ :=
  if value < lo then lo else if value > hi then hi else value

/-- From `util.h` (declared outside the provided sources).
Modelled from the spec: `wrapRange(v, min, max)` wraps `v` into the
half-open range `[min, max)` "modulo parent content size" / "modulo the
source rectangle's extent" (spec sections 3 and 4.6). -/
def wrapRange (value lo hi : Int) : Int :=
  lo + (value - lo) % (hi - lo)

/-- `IntRect` from `etc-internal.h`: an integer rectangle with (possibly
negative) width and height. -/
structure IntRect where
  x : Int
  y : Int
  w : Int
  h : Int
deriving DecidableEq, Repr

/-- `normalizedRect` (bitmap.cpp): ensure width and height are positive by
flipping a negative extent around its origin. -/
def normalizedRect (rect : IntRect) : IntRect :=
  let norm₁ : IntRect :=
    if rect.w < 0 then { rect with w := -rect.w, x := rect.x - -rect.w } else rect
  if norm₁.h < 0 then { norm₁ with h := -norm₁.h, y := norm₁.y - -norm₁.h } else norm₁

/-! ## Region tracker (`pixman` regions)

`BitmapPrivate` tracks the tainted (non-transparent) area with a
`pixman_region16_t`, or a `pixman_region32_t` for bitmaps whose largest
dimension exceeds the 16-bit coordinate range.  pixman is an external
library; its region operations are modelled by their documented set
semantics over half-open integer boxes `[x1,x2) × [y1,y2)`:
`pixman_region(32)_union_rect` unions a box into the region,
`pixman_region(32)_subtract(d, m, s)` stores the set difference `m − s`
into `d`, and `pixman_region(32)_contains_rectangle` reports
`PIXMAN_REGION_OUT` exactly when the box does not intersect the region.
A region is represented extensionally as a list of boxes whose union is
the tracked point set (pixman keeps a canonical band decomposition, but
all claims are about the point set, which the list represents exactly).
The coordinates stored in the 16-bit variant must lie in the `int16_t`
range for the model to be faithful; the claims only involve such
rectangles. -/

/-- A pixman box: the half-open point set `[x1,x2) × [y1,y2)`. -/
structure PBox where
  x1 : Int
  y1 : Int
  x2 : Int
  y2 : Int
deriving DecidableEq, Repr

/-- Point membership in a box. -/
def PBox.mem (b : PBox) (px py : Int) : Bool :=
  decide (b.x1 ≤ px) && decide (px < b.x2) && decide (b.y1 ≤ py) && decide (py < b.y2)

/-- Non-empty intersection of two boxes. -/
def PBox.overlaps (b c : PBox) : Bool :=
  decide (max b.x1 c.x1 < min b.x2 c.x2) && decide (max b.y1 c.y1 < min b.y2 c.y2)

/-- A pixman region, as the union of a list of boxes. -/
def Region := List PBox

/-- The empty region (`pixman_region_init`). -/
def Region.empty : Region := []

/-- Point membership in a region. -/
def Region.contains (r : Region) (px py : Int) : Bool :=
  r.any (fun b => b.mem px py)

/-- Whether a box intersects a region
(`pixman_region_contains_rectangle ≠ PIXMAN_REGION_OUT`). -/
def Region.overlapsBox (r : Region) (b : PBox) : Bool :=
  r.any (fun c => c.overlaps b)

/-- `pixman_region_union_rect(r, r, x, y, w, h)`: union the box
`[x, x+w) × [y, y+h)` into the region. -/
def Region.unionRect (r : Region) (x y w h : Int) : Region :=
  ⟨x, y, x + w, y + h⟩ :: r

/-- The at-most-four boxes making up `b − c` (box difference). -/
def PBox.diff (b c : PBox) : List PBox :=
  if b.overlaps c then
    let yTop := max b.y1 c.y1
    let yBot := min b.y2 c.y2
    (if b.y1 < c.y1 then [⟨b.x1, b.y1, b.x2, c.y1⟩] else []) ++
    (if c.y2 < b.y2 then [⟨b.x1, c.y2, b.x2, b.y2⟩] else []) ++
    (if b.x1 < c.x1 then [⟨b.x1, yTop, c.x1, yBot⟩] else []) ++
    (if c.x2 < b.x2 then [⟨c.x2, yTop, b.x2, yBot⟩] else [])
  else [b]

/-- Difference of a box list and a region. -/
def Region.diffList (bs : List PBox) (r : Region) : Region :=
  match r with
  | [] => bs
  | c :: rest => Region.diffList (bs.flatMap (fun b => b.diff c)) rest

/-- `pixman_region_subtract(d, m, s)` with `m` a single rectangle:
the region `m − s`. -/
def Region.subtractFromRect (m : PBox) (s : Region) : Region :=
  Region.diffList [m] s

/-- The tainted-area state of a `BitmapPrivate`: the
`pixmanUseRegion32` flag fixed at construction, the 16-bit region
`tainted` and the 32-bit region `tainted32` (the inactive one stays
empty, as in the constructor). -/
structure TaintState where
  pixmanUseRegion32 : Bool
  tainted : Region
  tainted32 : Region

/-- A freshly constructed taint state (both regions initialized empty). -/
def TaintState.init (use32 : Bool) : TaintState :=
  ⟨use32, Region.empty, Region.empty⟩

/-- `BitmapPrivate::addTaintedArea`: normalize the rectangle, then union
it into whichever region the mode flag selects. -/
def TaintState.addTaintedArea (s : TaintState) (rect : IntRect) : TaintState :=
  let norm := normalizedRect rect
  if s.pixmanUseRegion32 then
    { s with tainted32 := s.tainted32.unionRect norm.x norm.y norm.w norm.h }
  else
    { s with tainted := s.tainted.unionRect norm.x norm.y norm.w norm.h }

/-- `BitmapPrivate::touchesTaintedArea`: build the box
`(x, y, x+w, y+h)` and test `pixman_region(32)_contains_rectangle ≠
PIXMAN_REGION_OUT` on the active region. -/
def TaintState.touchesTaintedArea (s : TaintState) (rect : IntRect) : Bool :=
  let box : PBox := ⟨rect.x, rect.y, rect.x + rect.w, rect.y + rect.h⟩
  if s.pixmanUseRegion32 then s.tainted32.overlapsBox box
  else s.tainted.overlapsBox box

/-- `BitmapPrivate::substractTaintedArea`: short-circuit when the
rectangle does not touch the region, otherwise replace the active region
by `pixman_region(32)_subtract(&tainted, &m_reg, &tainted)`, i.e. by
`m_reg − tainted` (the rectangle minus the region — note the argument
order in the source). -/
def TaintState.substractTaintedArea (s : TaintState) (rect : IntRect) : TaintState :=
  if !s.touchesTaintedArea rect then s
  else
    let m : PBox := ⟨rect.x, rect.y, rect.x + rect.w, rect.y + rect.h⟩
    if s.pixmanUseRegion32 then
      { s with tainted32 := Region.subtractFromRect m s.tainted32 }
    else
      { s with tainted := Region.subtractFromRect m s.tainted }

/-- Point membership in the active (mode-selected) region: the tracked
point set of the taint state. -/
def TaintState.activeContains (s : TaintState) (px py : Int) : Bool :=
  if s.pixmanUseRegion32 then s.tainted32.contains px py
  else s.tainted.contains px py

/-! ## Backing textures and the animation sequencer -/

/-- A pixel as four 8-bit channels (R, G, B, A). -/
abbrev Pixel := ℕ × ℕ × ℕ × ℕ

/-- A `TEXFBO` (GPU texture + framebuffer pair from `gl-util.h`), carrying
its dimensions and, abstractly, its pixel content. -/
structure TEXFBO where
  width : Int
  height : Int
  content : Int × Int → Pixel

/-- An empty `TEXFBO()` (the cleared slot value). -/
def TEXFBO.blank : TEXFBO := ⟨0, 0, fun _ => (0, 0, 0, 0)⟩

/-- The `animation` member struct of `BitmapPrivate`.  `startTime` is
omitted: it is only read inside `updateTimer` to recompute `playTime`
from the wall clock, and the sequencer claims are stated directly over
`playTime`. -/
structure AnimationState where
  width : Int
  height : Int
  enabled : Bool
  playing : Bool
  needsReset : Bool
  loop : Bool
  frames : List TEXFBO
  fps : ℚ
  lastFrame : Int
  playTime : ℚ

/-- `animation.currentFrameIRaw()`:
`floor(lastFrame + (playTime / (1 / fps)))`, with `lastFrame` returned
unchanged for `fps <= 0`.  The C++ `double` arithmetic is modelled over
`ℚ`. -/
def AnimationState.currentFrameIRaw (a : AnimationState) : Int :=
  if a.fps ≤ 0 then a.lastFrame
  else ⌊(a.lastFrame : ℚ) + a.playTime / (1 / a.fps)⌋

/-- `animation.currentFrameI()`: `lastFrame` when stopped or pending a
timer reset; otherwise the raw index wrapped by `fmod` when looping, or
clamped to the last frame when not.  C's `fmod` on integral values keeps
the sign of the dividend, i.e. it is `Int.tmod`. -/
def AnimationState.currentFrameI (a : AnimationState) : Int :=
  if !a.playing || a.needsReset then a.lastFrame
  else
    let i := a.currentFrameIRaw
    if a.loop then Int.tmod i (a.frames.length : Int)
    else if i > (a.frames.length : Int) - 1 then (a.frames.length : Int) - 1 else i

/-- `animation.play()`. -/
def AnimationState.play (a : AnimationState) : AnimationState :=
  { a with playing := true, needsReset := true }

/-- `animation.stop()`: freeze `lastFrame` at the currently computed
frame. -/
def AnimationState.stop (a : AnimationState) : AnimationState :=
  { a with lastFrame := a.currentFrameI, playing := false }

/-- `animation.seek(frame)`: `lastFrame = clamp(frame, 0, frames.size())`
(note the upper bound in the source is `frames.size()`, not
`frames.size() - 1`). -/
def AnimationState.seek (a : AnimationState) (frame : Int) : AnimationState :=
  { a with lastFrame := clampI frame 0 (a.frames.length : Int) }

/-- The error kinds surfaced by the bitmap operations modelled here. -/
inductive RGSSError where
  | disposedAccess
  | unsupportedMega
  | unsupportedAnimated
  | unsupportedStatic
  | varyingDimensions
deriving DecidableEq, Repr

/-- The modelled `Bitmap` state: disposal flag, hi-res mirror flag (the
mirror's own content is not tracked), optional mega surface, optional
cached CPU surface, plain texture slot, animation struct, and the
tainted-region tracker. -/
structure Bitmap where
  disposed : Bool
  selfHires : Bool
  megaSurface : Option TEXFBO
  surface : Option (Int × Int → Pixel)
  gl : TEXFBO
  animation : AnimationState
  taint : TaintState

/-- `Bitmap::width()`: mega surface width, else animation width, else
texture width. -/
def Bitmap.width (b : Bitmap) : Int :=
  match b.megaSurface with
  | some m => m.width
  | none => if b.animation.enabled then b.animation.width else b.gl.width

/-- `Bitmap::height()`. -/
def Bitmap.height (b : Bitmap) : Int :=
  match b.megaSurface with
  | some m => m.height
  | none => if b.animation.enabled then b.animation.height else b.gl.height

/-- `Bitmap::gotoAndStop(frame)`: `guardDisposed` (modelled from the
spec: disposed access is a hard error), `GUARD_UNANIMATED`, then
`animation.stop(); animation.seek(frame)`. -/
def Bitmap.gotoAndStop (b : Bitmap) (frame : Int) : Except RGSSError Bitmap :=
  if b.disposed then .error .disposedAccess
  else if !b.animation.enabled then .error .unsupportedStatic
  else .ok { b with animation := (b.animation.stop).seek frame }

/-- `Bitmap::gotoAndPlay(frame)`: stop, seek, play. -/
def Bitmap.gotoAndPlay (b : Bitmap) (frame : Int) : Except RGSSError Bitmap :=
  if b.disposed then .error .disposedAccess
  else if !b.animation.enabled then .error .unsupportedStatic
  else .ok { b with animation := ((b.animation.stop).seek frame).play }

/-- `Color` (etc.h): four `double` channels in the 0–255 range,
modelled over `ℚ`. -/
structure Color where
  red : ℚ
  green : ℚ
  blue : ℚ
  alpha : ℚ

/-- `(uint8_t) clamp<double>(v, 0, 255)`: clamp then truncate toward
zero (equal to the floor on the clamped nonnegative value). -/
def clampByte (v : ℚ) : ℕ := (⌊clampQ v 0 255⌋).toNat

/-- A `Color` read back from an RGBA pixel (`getPixel`'s
`Color((pixel >> Rshift) & 0xFF, ...)`). -/
def colorOfPixel (p : Pixel) : Color :=
  ⟨(p.1 : ℚ), (p.2.1 : ℚ), (p.2.2.1 : ℚ), (p.2.2.2 : ℚ)⟩

/-- Write one pixel of a pixel map (`getPixelAt(surf, format, x, y) = v`). -/
def writePixel (f : Int × Int → Pixel) (x y : Int) (p : Pixel) : Int × Int → Pixel :=
  fun q => if q = (x, y) then p else f q

/-- The pixel content `source.getGLTypes()` presents: the current
animation frame when animated, the plain texture otherwise (out-of-range
frame indices — possible through the `seek` clamp bug — are modelled by
a blank frame). -/
def Bitmap.getGLTypesContent (b : Bitmap) : Int × Int → Pixel :=
  if b.animation.enabled then
    (b.animation.frames.getD b.animation.currentFrameI.toNat TEXFBO.blank).content
  else b.gl.content

/-- `Bitmap::setPixel(x, y, color)`: guards, clamp the channels to
bytes, upload the pixel to the texture (non-mega), taint `(x,y,1,1)`,
then patch the mega surface, or the cached CPU surface when present,
in place; `onModified(false)` deliberately does not free the cache.
The hi-res mirror block (which only writes the untracked mirror object)
is outside the modelled state; the claims constrain `selfHires = false`. -/
def Bitmap.setPixel (b : Bitmap) (x y : Int) (c : Color) : Except RGSSError Bitmap :=
  if b.disposed then .error .disposedAccess
  else if b.animation.enabled then .error .unsupportedAnimated
  else
    let pixel : Pixel :=
      (clampByte c.red, clampByte c.green, clampByte c.blue, clampByte c.alpha)
    let b₁ :=
      if b.megaSurface.isNone then
        { b with gl := { b.gl with content := writePixel b.gl.content x y pixel } }
      else b
    let b₂ := { b₁ with taint := b₁.taint.addTaintedArea ⟨x, y, 1, 1⟩ }
    let b₃ :=
      match b₂.megaSurface with
      | some m =>
          { b₂ with megaSurface := some { m with content := writePixel m.content x y pixel } }
      | none =>
          match b₂.surface with
          | some f => { b₂ with surface := some (writePixel f x y pixel) }
          | none => b₂
    .ok b₃

/-- `Bitmap::getPixel(x, y)`: guards, zero color for out-of-bounds
coordinates, otherwise read from the mega surface or the cached CPU
surface, populating the cache from the texture (`createSurface`) when
absent.  The hi-res averaging block (which only reads the untracked
mirror) is outside the modelled state; the claims constrain
`selfHires = false`. -/
def Bitmap.getPixel (b : Bitmap) (x y : Int) : Except RGSSError (Color × Bitmap) :=
  if b.disposed then .error .disposedAccess
  else if b.animation.enabled then .error .unsupportedAnimated
  else if x < 0 ∨ y < 0 ∨ x ≥ b.width ∨ y ≥ b.height then .ok (⟨0, 0, 0, 0⟩, b)
  else
    match b.megaSurface with
    | some m => .ok (colorOfPixel (m.content (x, y)), b)
    | none =>
        match b.surface with
        | some f => .ok (colorOfPixel (f (x, y)), b)
        | none => .ok (colorOfPixel (b.gl.content (x, y)), { b with surface := some b.gl.content })

/-- `Bitmap::addFrame(source, position)`: guards (`guardDisposed`,
`GUARD_MEGA`, the `source.width()`/`height()` calls guard the source's
disposal, dimension mismatch throws), request a fresh frame from the
texture pool (modelled from the spec: the pool yields a fresh
texture+framebuffer), convert a static bitmap to animation mode (the
existing texture becomes frame 0, the cached surface is freed, `fps`
defaults to the graphics frame rate), fill the new frame from the
source (upload of the source's cached surface when present, `GLMeta`
blit otherwise — both copy the source's pixels), and insert it
(`push_back` for negative positions, returning the new size; clamped
`insert` otherwise, returning `position`). -/
def Bitmap.addFrame (b : Bitmap) (source : Bitmap) (position : Int) (frameRate : ℚ) :
    Except RGSSError (Bitmap × Int) :=
  if b.disposed then .error .disposedAccess
  else if b.megaSurface.isSome then .error .unsupportedMega
  else if source.disposed then .error .disposedAccess
  else if ¬(source.height = b.height ∧ source.width = b.width) then .error .varyingDimensions
  else
    let b₁ :=
      if ¬b.animation.enabled then
        { b with
          animation := { b.animation with
            width := b.gl.width, height := b.gl.height, enabled := true,
            lastFrame := 0, playTime := 0,
            fps := if b.animation.fps ≤ 0 then frameRate else b.animation.fps,
            frames := b.animation.frames ++ [b.gl] },
          surface := none,
          gl := TEXFBO.blank }
      else b
    let newframe : TEXFBO := ⟨source.width, source.height,
      match source.surface with
      | some f => f
      | none => source.getGLTypesContent⟩
    let b₂ :=
      match source.surface with
      | some _ => { b₁ with surface := none }
      | none => b₁
    if position < 0 then
      .ok ({ b₂ with animation := { b₂.animation with
               frames := b₂.animation.frames ++ [newframe] } },
           (b₂.animation.frames.length : Int) + 1)
    else
      .ok ({ b₂ with animation := { b₂.animation with
               frames := b₂.animation.frames.insertIdx
                 (clampI position 0 (b₂.animation.frames.length : Int)).toNat newframe } },
           position)

/-- `Bitmap::removeFrame(position)`: guards, release and erase the
selected frame (last frame for negative positions, clamped index
otherwise), and when exactly one frame remains, demote back to a static
bitmap: the remaining frame's storage moves into the plain texture slot
and the whole rectangle is tainted (`taintArea(rect())`). -/
def Bitmap.removeFrame (b : Bitmap) (position : Int) : Except RGSSError Bitmap :=
  if b.disposed then .error .disposedAccess
  else if ¬b.animation.enabled then .error .unsupportedStatic
  else
    let n := b.animation.frames.length
    let pos : ℕ := if position < 0 then n - 1 else (clampI position 0 ((n : Int) - 1)).toNat
    let frames' := b.animation.frames.eraseIdx pos
    if frames'.length = 1 then
      let remaining := frames'.getD 0 TEXFBO.blank
      .ok { b with
        animation := { b.animation with
          enabled := false, playing := false, width := 0, height := 0,
          lastFrame := 0, frames := [] },
        gl := remaining,
        taint := b.taint.addTaintedArea ⟨0, 0, remaining.width, remaining.height⟩ }
    else
      .ok { b with animation := { b.animation with frames := frames' } }

/-! ## Child viewport engine: pan-position update

`Bitmap::childUpdate` recomputes the child's pan position within the
mega parent (source lines 1286–1342) and, when a re-render is needed
and wrap mode is on, wraps a local copy of that position for assembling
the blit sub-rectangles (lines 1404–1410) — after the store into
`pChild->parentPos`.  The model covers this pan computation; its inputs
are the quantities childUpdate has computed at that point (the
converted `visibleRect`, the adjusted offsets `realOX/realOY`, the
shrunken child size `selfWidth/selfHeight`, the adjusted source extent,
the wrap flag, the accumulated `updateNeeded` flag and the previous
`parentPos`).  The sprite-only mirror adjustment (lines 1394–1401)
affects only the local copy on non-wrapping sprites and is outside this
model. -/

/-- The inputs of the pan-position computation. -/
structure ChildPanState where
  wrap : Bool
  updateNeeded : Bool
  visibleRect : IntRect
  realOX : Int
  realOY : Int
  selfWidth : Int
  selfHeight : Int
  srcW : Int
  srcH : Int
  parentPos : Int × Int

/-- The outputs: the stored `pChild->parentPos`, the local
`newParentPos`, the final `updateNeeded` flag, and the (possibly
wrapped) pan position used to assemble the re-render sub-rectangles. -/
structure ChildPanResult where
  parentPos : Int × Int
  newParentPos : Int × Int
  updateNeeded : Bool
  renderPos : Int × Int

/-- `overflowX = std::max(selfWidth - visibleRect.w, 0)` (line 1289). -/
def childOverflowX (s : ChildPanState) : Int := max (s.selfWidth - s.visibleRect.w) 0

/-- `overflowY` (line 1290). -/
def childOverflowY (s : ChildPanState) : Int := max (s.selfHeight - s.visibleRect.h) 0

/-- `adjustedrealOX = -visibleRect.x + realOX`, wrapped into
`[0, adjustedSrcRect.w)` in wrap mode (lines 1299, 1305–1309). -/
def childArOX (s : ChildPanState) : Int :=
  let a := -s.visibleRect.x + s.realOX
  if s.wrap then wrapRange a 0 s.srcW else a

/-- `adjustedrealOY` (lines 1300, 1305–1309). -/
def childArOY (s : ChildPanState) : Int :=
  let a := -s.visibleRect.y + s.realOY
  if s.wrap then wrapRange a 0 s.srcH else a

/-- The recomputed x pan position (lines 1315–1321): 0 when the child
covers the source, else `adjustedrealOX - overflowX/2` (C++ integer
division of the nonnegative overflow), clamped into
`[0, max(srcW - selfWidth, 0)]` only when wrap is off. -/
def childCompX (s : ChildPanState) : Int :=
  let v := if s.selfWidth ≥ s.srcW then 0 else childArOX s - Int.tdiv (childOverflowX s) 2
  if ¬s.wrap then clampI v 0 (max (s.srcW - s.selfWidth) 0) else v

/-- The recomputed y pan position (lines 1325–1331). -/
def childCompY (s : ChildPanState) : Int :=
  let v := if s.selfHeight ≥ s.srcH then 0 else childArOY s - Int.tdiv (childOverflowY s) 2
  if ¬s.wrap then clampI v 0 (max (s.srcH - s.selfHeight) 0) else v

/-- The x-axis recompute condition of the loop (line 1313):
`minOX`/`maxOX` come from the previous `parentPos`,
`maxOX2 = wrapRange(maxOX, 0, srcW)`. -/
def childCondX (s : ChildPanState) : Prop :=
  (childArOX s < s.parentPos.1 ∧
    (¬s.wrap ∨ wrapRange (s.parentPos.1 + childOverflowX s) 0 s.srcW =
        s.parentPos.1 + childOverflowX s ∨
      childArOX s > wrapRange (s.parentPos.1 + childOverflowX s) 0 s.srcW)) ∨
  childArOX s > s.parentPos.1 + childOverflowX s

/-- The y-axis recompute condition (line 1323). -/
def childCondY (s : ChildPanState) : Prop :=
  (childArOY s < s.parentPos.2 ∧
    (¬s.wrap ∨ wrapRange (s.parentPos.2 + childOverflowY s) 0 s.srcH =
        s.parentPos.2 + childOverflowY s ∨
      childArOY s > wrapRange (s.parentPos.2 + childOverflowY s) 0 s.srcH)) ∨
  childArOY s > s.parentPos.2 + childOverflowY s

instance (s : ChildPanState) : Decidable (childCondX s) := by
  unfold childCondX; infer_instance

instance (s : ChildPanState) : Decidable (childCondY s) := by
  unfold childCondY; infer_instance

/-- `newParentPos` after the first loop iteration (lines 1311–1332):
each axis is recomputed when `updateNeeded` or its condition fires,
otherwise it keeps the previous value (the local is initialized to
`pChild->parentPos`, line 1303). -/
def childN1 (s : ChildPanState) : Int × Int :=
  (if s.updateNeeded ∨ childCondX s then childCompX s else s.parentPos.1,
   if s.updateNeeded ∨ childCondY s then childCompY s else s.parentPos.2)

/-- Lines 1286–1342 and 1404–1410 of `childUpdate`: the two-pass
fixed-point loop (a second iteration runs with `updateNeeded = true`,
recomputing both axes, exactly when the first pass changed the position
without storing it), the store into `pChild->parentPos` under
`updateNeeded`, and the final wrap of the local copy when a re-render
occurs in wrap mode. -/
def childPanUpdate (s : ChildPanState) : ChildPanResult :=
  let n1 := childN1 s
  let stored :=
    if s.updateNeeded then n1
    else if n1 = s.parentPos then s.parentPos
    else (childCompX s, childCompY s)
  let np :=
    if s.updateNeeded then n1
    else if n1 = s.parentPos then n1
    else (childCompX s, childCompY s)
  let uN :=
    if s.updateNeeded then true
    else if n1 = s.parentPos then false
    else true
  let render :=
    if uN ∧ s.wrap then (wrapRange np.1 0 s.srcW, wrapRange np.2 0 s.srcH) else np
  ⟨stored, np, uN, render⟩

/-! ## Blit engine: rectangle clipping and dispatch

`Bitmap::stretchBlt` first clips the source and destination rectangles
with `shrinkRects` and then dispatches on the backing-store combination,
the clamped opacity and the destination's tainted region.  The C++
`float` arithmetic inside `shrinkRects` is modelled over `ℚ`; the `int`
inputs convert to `float` exactly in the bitmap-size range, and in every
branch reachable from the integer wrapper the divisor `sLength` is
nonzero whenever the quotient is multiplied by a nonzero factor, so the
`ℚ` model (where `x / 0 = 0`) agrees with the IEEE computation. -/

/-- The five values `shrinkRects` (float version) communicates through
its reference parameters and return value. -/
structure ShrinkResultQ where
  ret : Bool
  sourcePos : ℚ
  sourceLen : ℚ
  destPos : ℚ
  destLen : ℚ

/-- `shrinkRects` (float version, bitmap.cpp): clip the possibly
inverted source interval against `[0, sBitmapLen)` and shrink the
destination interval proportionally.  Returns `ret = true` when the
source interval lies entirely outside the bitmap.  The two sequential
mutating `if` blocks of the C++ are written as conditional
re-bindings. -/
def shrinkRectsF (sourcePos sourceLen : ℚ) (sBitmapLen : Int)
    (destPos destLen : ℚ) (dBitmapLen : Int) (normalize : Bool) : ShrinkResultQ :=
  let sStart := if sourceLen > 0 then sourcePos else sourceLen + sourcePos
  let sEnd := if sourceLen > 0 then sourceLen + sourcePos else sourcePos
  let sLength := sEnd - sStart
  if sStart ≥ 0 ∧ sEnd < (sBitmapLen : ℚ) then
    ⟨false, sourcePos, sourceLen, destPos, destLen⟩
  else if sStart ≥ (sBitmapLen : ℚ) ∨ sEnd < 0 then
    ⟨true, sourcePos, sourceLen, destPos, destLen⟩
  else
    let dStart := if destLen > 0 then destPos else destLen + destPos
    let dEnd := if destLen > 0 then destLen + destPos else destPos
    let dLength := dEnd - dStart
    let delta := sEnd - (sBitmapLen : ℚ)
    let dDelta₁ := (delta / sLength) * dLength
    let sLength₁ := if delta > 0 then sLength - delta else sLength
    let sEnd₁ := if delta > 0 then (sBitmapLen : ℚ) else sEnd
    let dEnd₁ := if delta > 0 then dEnd - dDelta₁ else dEnd
    let dLength₁ := if delta > 0 then dLength - dDelta₁ else dLength
    let dDelta₂ := (sStart / sLength₁) * dLength₁
    let sLength₂ := if sStart < 0 then sLength₁ + sStart else sLength₁
    let sStart₂ := if sStart < 0 then 0 else sStart
    let dStart₂ := if sStart < 0 then dStart - dDelta₂ else dStart
    let dLength₂ := if sStart < 0 then dLength₁ + dDelta₂ else dLength₁
    if normalize = false then
      ⟨false,
        if sourceLen > 0 then sStart₂ else sEnd₁,
        if sourceLen > 0 then sLength₂ else -sLength₂,
        if destLen > 0 then dStart₂ else dEnd₁,
        if destLen > 0 then dLength₂ else -dLength₂⟩
    else
      ⟨false,
        sStart₂,
        sLength₂,
        if (decide (destLen > 0)) = (decide (sourceLen > 0)) then dStart₂ else dEnd₁,
        if (decide (destLen > 0)) = (decide (sourceLen > 0)) then dLength₂ else -dLength₂⟩

attribute [irreducible] shrinkRectsF

/-- C's `round()`: round half away from zero (`Rat.floor` is the
kernel-computable `⌊·⌋` on `ℚ`). -/
def cround (q : ℚ) : Int :=
  if q ≥ 0 then Rat.floor (q + 1/2) else -(Rat.floor (-q + 1/2))

/-- The result of the integer `shrinkRects` wrapper. -/
structure ShrinkResultI where
  ret : Bool
  sourcePos : Int
  sourceLen : Int
  destPos : Int
  destLen : Int

/-- `shrinkRects` (int version, bitmap.cpp): clip the source interval
against the source bitmap (`normalize = true`), then — unless the source
was entirely outside — clip the destination interval against the
destination bitmap with the roles swapped, round all four values, and
report a no-op when either was fully outside or either rounded length is
zero. -/
def shrinkRectsI (sourcePos sourceLen sBitmapLen destPos destLen dBitmapLen : Int) :
    ShrinkResultI :=
  let r₁ := shrinkRectsF (sourcePos : ℚ) (sourceLen : ℚ) sBitmapLen
    (destPos : ℚ) (destLen : ℚ) dBitmapLen true
  let after :=
    if !r₁.ret then
      let r₂ := shrinkRectsF r₁.destPos r₁.destLen dBitmapLen
        r₁.sourcePos r₁.sourceLen sBitmapLen false
      (r₂.ret, r₂.destPos, r₂.destLen, r₂.sourcePos, r₂.sourceLen)
    else (r₁.ret, r₁.sourcePos, r₁.sourceLen, r₁.destPos, r₁.destLen)
  match after with
  | (ret, fsp, fsl, fdp, fdl) =>
    let sp := cround fsp
    let sl := cround fsl
    let dp := cround fdp
    let dl := cround fdl
    ⟨ret || decide (sl = 0) || decide (dl = 0), sp, sl, dp, dl⟩

attribute [irreducible] shrinkRectsI

/-- The composition path `stretchBlt` ends in once it reaches the paint
stage. -/
inductive BltPath where
  /-- Destination is a mega surface: CPU-surface blit (`SDL_BlitSurface`
  / `SDL_BlitScaled`, with the manual flip loop for negative extents). -/
  | cpuMega
  /-- `GLMeta` fast blit: direct non-blended GPU-to-GPU rectangle copy. -/
  | fastGpu
  /-- Direct upload of the CPU source pixels into the destination
  texture (either `TEX::uploadSubImage` into the destination or the
  intermediary-`TEXFBO` upload+blit variant; no shader compositing). -/
  | gpuUploadDirect
  /-- `BltShader` fragment-pipeline composite against the existing
  destination content. -/
  | shaderComposite
deriving DecidableEq, Repr

/-- The control-flow outcome of a `stretchBlt` call.  `returnedEarly`
is one of the `return`s preceding the paint stage: these happen before
any write to the destination's pixels, its tainted region or its cached
CPU surface.  `mutated path destRect` means the call reached the paint
stage and ended with `addTaintedArea(destRect); onModified()` on the
clipped destination rectangle. -/
inductive BltOutcome where
  | raisedDisposed
  | forwardedHires
  | returnedEarly
  | mutated (path : BltPath) (destRect : IntRect)
deriving DecidableEq, Repr

/-- The parts of the two bitmaps and of the GL state that
`Bitmap::stretchBlt`'s control flow reads.  `srcIsMega` is
`source.megaSurface() != NULL` (`srcSurf` in the source). -/
structure BltCtx where
  selfDisposed : Bool
  srcDisposed : Bool
  selfHasHires : Bool
  srcHasHires : Bool
  selfIsMega : Bool
  srcIsMega : Bool
  selfWidth : Int
  selfHeight : Int
  srcWidth : Int
  srcHeight : Int
  taint : TaintState
  maxTexSize : Int

/-- `Bitmap::stretchBlt`'s control flow: disposal guards, hi-res
forwarding, opacity clamp, per-axis clipping, then dispatch by
backing-store kind, opacity and destination taint.  The oversized-CPU
-source pre-pass (`srcRectTooBig`/`srcSurfTooBig`) software-resizes or
crops the source with the opacity baked in and then continues with
`opacity = 255`.  The two direct-upload variants (plain
`uploadSubImage` vs. the `subImageFix`/resize intermediary) are both
`gpuUploadDirect`; neither composites through the shader. -/
def stretchBltOutcome (ctx : BltCtx) (destRect sourceRect : IntRect) (opacity : Int) :
    BltOutcome :=
  if ctx.selfDisposed then .raisedDisposed
  else if ctx.srcDisposed then .returnedEarly
  else if ctx.selfHasHires then .forwardedHires
  else if ctx.srcHasHires then .forwardedHires
  else
    let op := clampI opacity 0 255
    if op = 0 then .returnedEarly
    else
      let rx := shrinkRectsI sourceRect.x sourceRect.w ctx.srcWidth
        destRect.x destRect.w ctx.selfWidth
      if rx.ret then .returnedEarly
      else
        let ry := shrinkRectsI sourceRect.y sourceRect.h ctx.srcHeight
          destRect.y destRect.h ctx.selfHeight
        if ry.ret then .returnedEarly
        else
          let destRect' : IntRect := ⟨rx.destPos, ry.destPos, rx.destLen, ry.destLen⟩
          let sourceRect' : IntRect := ⟨rx.sourcePos, ry.sourcePos, rx.sourceLen, ry.sourceLen⟩
          let touches := ctx.taint.touchesTaintedArea destRect'
          if ctx.selfIsMega then .mutated .cpuMega destRect'
          else if ¬ctx.srcIsMega ∧ op = 255 ∧ touches = false then
            .mutated .fastGpu destRect'
          else
            let srcRectTooBig := sourceRect'.w > ctx.maxTexSize ∨ sourceRect'.h > ctx.maxTexSize
            let srcSurfTooBig := ctx.srcWidth > ctx.maxTexSize ∨ ctx.srcHeight > ctx.maxTexSize
            let op₂ := if ctx.srcIsMega ∧ (srcRectTooBig ∨ srcSurfTooBig) then 255 else op
            if ctx.srcIsMega ∧ op₂ = 255 ∧ touches = false then
              .mutated .gpuUploadDirect destRect'
            else .mutated .shaderComposite destRect'

/-- The clipped source rectangle `stretchBlt` works with after the two
`shrinkRects` calls (the `sourceRect` reference parameters on exit). -/
def bltClippedSrc (ctx : BltCtx) (destRect sourceRect : IntRect) : IntRect :=
  ⟨(shrinkRectsI sourceRect.x sourceRect.w ctx.srcWidth
      destRect.x destRect.w ctx.selfWidth).sourcePos,
   (shrinkRectsI sourceRect.y sourceRect.h ctx.srcHeight
      destRect.y destRect.h ctx.selfHeight).sourcePos,
   (shrinkRectsI sourceRect.x sourceRect.w ctx.srcWidth
      destRect.x destRect.w ctx.selfWidth).sourceLen,
   (shrinkRectsI sourceRect.y sourceRect.h ctx.srcHeight
      destRect.y destRect.h ctx.selfHeight).sourceLen⟩

/-- The opacity the composite else-branch continues with after the
oversized-CPU-source pre-pass (source lines 1782–1816): when a mega
source's clipped rectangle or whole surface exceeds the hardware
texture limit, it is software-resized or cropped with the original
opacity baked in via `SDL_SetSurfaceAlphaMod`, and the code sets
`opacity = 255`; otherwise the clamped opacity is unchanged. -/
def bltEffectiveOpacity (ctx : BltCtx) (destRect sourceRect : IntRect) (opacity : Int) : Int :=
  if ctx.srcIsMega = true ∧
      (((bltClippedSrc ctx destRect sourceRect).w > ctx.maxTexSize ∨
        (bltClippedSrc ctx destRect sourceRect).h > ctx.maxTexSize) ∨
       (ctx.srcWidth > ctx.maxTexSize ∨ ctx.srcHeight > ctx.maxTexSize))
    then (255 : Int) else clampI opacity 0 255

/-- `Bitmap::blt(x, y, source, rect, opacity)`: silently skip a disposed
source, otherwise forward to
`stretchBlt(IntRect(x, y, rect.w, rect.h), source, rect, opacity)`. -/
def bltOutcome (ctx : BltCtx) (x y : Int) (rect : IntRect) (opacity : Int) : BltOutcome :=
  if ctx.srcDisposed then .returnedEarly
  else stretchBltOutcome ctx ⟨x, y, rect.w, rect.h⟩ rect opacity

/-- The lower edge of the (possibly inverted) interval `[pos, pos+len)`,
as `shrinkRects` computes it (`sStart`). -/
def axisStart (pos len : Int) : Int := if len > 0 then pos else len + pos

/-- The upper edge of the (possibly inverted) interval (`sEnd`). -/
def axisEnd (pos len : Int) : Int := if len > 0 then len + pos else pos

/-- The interval lies entirely outside the bitmap axis `[0, bitmapLen)`:
its normalized upper edge is at most 0 or its lower edge is at least the
bitmap extent. -/
def axisOutside (pos len bitmapLen : Int) : Prop :=
  axisEnd pos len ≤ 0 ∨ axisStart pos len ≥ bitmapLen

/-! ## Concrete instances used by the claim theorems -/

/-- A 4×4 blank frame. -/
def blankFrame : TEXFBO := ⟨4, 4, fun _ => (0, 0, 0, 0)⟩

/-- A stopped 5-frame looping animation state, fps 10, at frame 0. -/
def anim5 : AnimationState :=
  { width := 4, height := 4, enabled := true, playing := false,
    needsReset := false, loop := true, frames := List.replicate 5 blankFrame,
    fps := 10, lastFrame := 0, playTime := 0 }

/-- An animated 5-frame bitmap, currently stopped. -/
def animBitmap5 : Bitmap :=
  { disposed := false, selfHires := false, megaSurface := none,
    surface := none, gl := TEXFBO.blank, animation := anim5,
    taint := TaintState.init false }

/-- `anim5`, playing, 0.45 s of play time elapsed. -/
def anim5At045 : AnimationState := { anim5 with playing := true, playTime := 9/20 }

/-- `anim5`, playing without loop, 10 s of play time elapsed. -/
def anim5NoLoopAt10 : AnimationState :=
  { anim5 with playing := true, loop := false, playTime := 10 }

/-- A 16-bit-mode taint state tracking the single unit square at the
origin (the region state reached by one `addTaintedArea(0,0,1,1)` on a
fresh bitmap). -/
def taintBase : TaintState := (TaintState.init false).addTaintedArea ⟨0, 0, 1, 1⟩

/-- `taintBase` after `addTaintedArea` then `substractTaintedArea` of
that very same rectangle. -/
def taintRoundtrip : TaintState :=
  (taintBase.addTaintedArea ⟨0, 0, 1, 1⟩).substractTaintedArea ⟨0, 0, 1, 1⟩

/-- A blit context: plain 10×10 texture destination, plain 10×10 texture
source, both alive, no hi-res mirrors, empty 16-bit tainted region,
hardware texture limit 2048. -/
def plainCtx : BltCtx :=
  { selfDisposed := false, srcDisposed := false, selfHasHires := false,
    srcHasHires := false, selfIsMega := false, srcIsMega := false,
    selfWidth := 10, selfHeight := 10, srcWidth := 10, srcHeight := 10,
    taint := TaintState.init false, maxTexSize := 2048 }

/-- `plainCtx` with a mega (CPU-surface) source. -/
def megaSrcCtx : BltCtx := { plainCtx with srcIsMega := true }

/-- `plainCtx` with a disposed source. -/
def disposedSrcCtx : BltCtx := { plainCtx with srcDisposed := true }

/-- A freshly constructed (static, empty) animation struct, as the
`BitmapPrivate` constructor initializes it. -/
def emptyAnim : AnimationState :=
  { width := 0, height := 0, enabled := false, playing := false,
    needsReset := false, loop := true, frames := [], fps := 0,
    lastFrame := 0, playTime := 0 }

/-- A live 4×4 static bitmap with constant pixel content (1,2,3,4). -/
def staticBitmap : Bitmap :=
  { disposed := false, selfHires := false, megaSurface := none,
    surface := none, gl := ⟨4, 4, fun _ => (1, 2, 3, 4)⟩,
    animation := emptyAnim, taint := TaintState.init false }

/-- A live 4×4 static bitmap with constant pixel content (7,7,7,7). -/
def srcBitmap : Bitmap := { staticBitmap with gl := ⟨4, 4, fun _ => (7, 7, 7, 7)⟩ }

/-- `staticBitmap` with a populated CPU surface cache. -/
def cachedBitmap : Bitmap := { staticBitmap with surface := some (fun _ => (9, 9, 9, 9)) }

/-- A wrapping plane child over a 100×100 source, child size 20×20 but
only a 10-pixel-wide strip visible (`overflowX = 10`), pan target at
offset 0, an update forced (`dirty`). -/
def panCounterexample : ChildPanState :=
  { wrap := true, updateNeeded := true, visibleRect := ⟨0, 0, 10, 20⟩,
    realOX := 0, realOY := 0, selfWidth := 20, selfHeight := 20,
    srcW := 100, srcH := 100, parentPos := (0, 0) }

/-! ## Helper lemmas -/

theorem normalizedRect_of_pos (rect : IntRect) (hw : 0 ≤ rect.w) (hh : 0 ≤ rect.h) :
    normalizedRect rect = rect := by
  unfold normalizedRect
  have h1 : ¬ rect.w < 0 := by omega
  have h2 : ¬ rect.h < 0 := by omega
  simp [h1, h2]

theorem PBox.any_mem_diff (b c : PBox) (px py : Int) :
    (b.diff c).any (fun d => d.mem px py) = (b.mem px py && !c.mem px py) := by
  rcases b with ⟨bx1, by1, bx2, by2⟩
  rcases c with ⟨cx1, cy1, cx2, cy2⟩
  rw [Bool.eq_iff_iff]
  simp only [PBox.diff, PBox.mem, PBox.overlaps]
  split_ifs <;>
    simp_all only [List.any_append, List.any_cons, List.any_nil, Bool.or_false,
      Bool.false_or, Bool.or_eq_true, Bool.and_eq_true, Bool.not_eq_true',
      Bool.and_eq_false_iff, decide_eq_true_eq, decide_eq_false_iff_not,
      List.any_nil, Bool.false_eq_true, false_or, or_false, false_iff,
      not_and, not_lt, not_le] <;>
    omega

theorem Region.any_mem_diffPieces (bs : List PBox) (c : PBox) (px py : Int) :
    ((bs.flatMap (fun b => b.diff c)).any (fun d => d.mem px py)) =
      (bs.any (fun b => b.mem px py) && !c.mem px py) := by
  induction bs with
  | nil => simp
  | cons b rest ih =>
      simp only [List.flatMap_cons, List.any_append, List.any_cons, ih, PBox.any_mem_diff]
      cases c.mem px py <;> cases b.mem px py <;> simp

theorem Region.contains_diffList (bs : List PBox) (r : Region) (px py : Int) :
    (Region.diffList bs r).contains px py =
      (bs.any (fun b => b.mem px py) && !(r.contains px py)) := by
  induction r generalizing bs with
  | nil => simp [Region.diffList, Region.contains]
  | cons c rest ih =>
      rw [Region.diffList, ih, Region.any_mem_diffPieces]
      simp only [Region.contains, List.any_cons]
      cases c.mem px py <;> cases rest.any (fun b => b.mem px py) <;> simp

theorem Region.contains_subtractFromRect (m : PBox) (s : Region) (px py : Int) :
    (Region.subtractFromRect m s).contains px py = (m.mem px py && !s.contains px py) := by
  rw [Region.subtractFromRect, Region.contains_diffList]
  simp

theorem shrinkRectsF_destLen_zero (sp sl : ℚ) (sbl : Int) (dp : ℚ) (dbl : Int) (norm : Bool) :
    (shrinkRectsF sp sl sbl dp 0 dbl norm).destLen = 0 := by
  simp only [shrinkRectsF, mul_zero, sub_zero, sub_self, zero_add, neg_zero, ite_self,
    gt_iff_lt, lt_self_iff_false, if_false, zero_div, zero_mul, add_zero]
  split_ifs <;> rfl

theorem shrinkRectsF_outside (sp sl : ℚ) (sbl : Int) (dp dl : ℚ) (dbl : Int)
    (hsbl : 0 < sbl)
    (hout : (if sl > 0 then sl + sp else sp) ≤ 0 ∨ (if sl > 0 then sp else sl + sp) ≥ (sbl : ℚ)) :
    (shrinkRectsF sp sl sbl dp dl dbl true).ret = true ∨
      (shrinkRectsF sp sl sbl dp dl dbl true).sourceLen = 0 := by
  have hsblq : (0 : ℚ) < (sbl : ℚ) := by exact_mod_cast hsbl
  unfold shrinkRectsF
  set sStart := if sl > 0 then sp else sl + sp with hS
  set sEnd := if sl > 0 then sl + sp else sp with hE
  have hle : sStart ≤ sEnd := by
    rw [hS, hE]; split_ifs with h <;> linarith
  by_cases h2 : sStart ≥ (sbl : ℚ) ∨ sEnd < 0
  · have h1 : ¬(sStart ≥ 0 ∧ sEnd < (sbl : ℚ)) := by
      rintro ⟨ha, hb⟩
      rcases h2 with h | h <;> linarith
    rw [if_neg h1, if_pos h2]
    left; rfl
  · push_neg at h2
    have hEnd0 : sEnd = 0 := by
      rcases hout with h | h
      · linarith [h2.2]
      · exact absurd h (by push_neg; exact h2.1)
    by_cases h1 : sStart ≥ 0 ∧ sEnd < (sbl : ℚ)
    · rw [if_pos h1]
      right
      have heq : sStart = sEnd := le_antisymm hle (hEnd0 ▸ h1.1)
      rw [hS, hE] at heq
      split_ifs at heq with h <;> simp <;> linarith
    · have hs0 : sStart < 0 := by
        by_contra hc
        push_neg at hc
        exact h1 ⟨hc, by rw [hEnd0]; exact hsblq⟩
      have h2' : ¬(sStart ≥ (sbl : ℚ) ∨ sEnd < 0) := by
        push_neg
        exact ⟨by linarith [h2.1], h2.2⟩
      rw [if_neg h1, if_neg h2', if_neg (show ¬(true = false) by simp)]
      right
      have e1 : (sStart < 0) = True := eq_true hs0
      have e2 : (sEnd - (sbl : ℚ) > 0) = False := eq_false (by push_neg; linarith)
      simp only [e1, e2, if_true, if_false]
      linarith

theorem ratFloor_eq_intFloor (q : ℚ) : Rat.floor q = ⌊q⌋ :=
  (Rat.floor_def' q).trans Rat.floor_def.symm

theorem cround_zero : cround 0 = 0 := by
  rw [cround, if_pos (le_refl (0 : ℚ)), ratFloor_eq_intFloor]
  norm_num

theorem cround_nonneg_int (n : Int) (hn : 0 ≤ n) : cround (n : ℚ) = n := by
  rw [cround, if_pos (by exact_mod_cast hn), ratFloor_eq_intFloor]
  rw [Int.floor_eq_iff]
  constructor <;> push_cast <;> linarith

theorem shrinkRectsI_outside (sp sl sbl dp dl dbl : Int)
    (hsbl : 0 < sbl) (hout : axisOutside sp sl sbl) :
    (shrinkRectsI sp sl sbl dp dl dbl).ret = true := by
  have houtq : (if (sl : ℚ) > 0 then (sl : ℚ) + (sp : ℚ) else (sp : ℚ)) ≤ 0 ∨
      (if (sl : ℚ) > 0 then (sp : ℚ) else (sl : ℚ) + (sp : ℚ)) ≥ (sbl : ℚ) := by
    by_cases hsl : (0 : Int) < sl
    · have hslq : (0 : ℚ) < (sl : ℚ) := by exact_mod_cast hsl
      rcases hout with h | h
      · left
        rw [axisEnd, if_pos hsl] at h
        rw [if_pos hslq]
        exact_mod_cast h
      · right
        rw [axisStart, if_pos hsl] at h
        rw [if_pos hslq]
        exact_mod_cast h
    · have hslq : ¬ (0 : ℚ) < (sl : ℚ) := by exact_mod_cast hsl
      rcases hout with h | h
      · left
        rw [axisEnd, if_neg hsl] at h
        rw [if_neg hslq]
        exact_mod_cast h
      · right
        rw [axisStart, if_neg hsl] at h
        rw [if_neg hslq]
        exact_mod_cast h
  rcases shrinkRectsF_outside (sp : ℚ) (sl : ℚ) sbl (dp : ℚ) (dl : ℚ) dbl hsbl houtq
    with hret | hzero
  · simp [shrinkRectsI, hret]
  · by_cases hret : (shrinkRectsF (sp : ℚ) (sl : ℚ) sbl (dp : ℚ) (dl : ℚ) dbl true).ret = true
    · simp [shrinkRectsI, hret]
    · have hb : (shrinkRectsF (sp : ℚ) (sl : ℚ) sbl (dp : ℚ) (dl : ℚ) dbl true).ret = false :=
        Bool.eq_false_iff.mpr hret
      have hdz := shrinkRectsF_destLen_zero
        ((shrinkRectsF (sp : ℚ) (sl : ℚ) sbl (dp : ℚ) (dl : ℚ) dbl true).destPos)
        ((shrinkRectsF (sp : ℚ) (sl : ℚ) sbl (dp : ℚ) (dl : ℚ) dbl true).destLen)
        dbl
        ((shrinkRectsF (sp : ℚ) (sl : ℚ) sbl (dp : ℚ) (dl : ℚ) dbl true).sourcePos)
        sbl false
      simp [shrinkRectsI, hb, hzero, hdz, cround_zero]

theorem Region.contains_subtract_union (r0 : Region) (b : PBox) (px py : Int) :
    (Region.subtractFromRect b (b :: r0)).contains px py = false := by
  rw [Region.contains_subtractFromRect]
  simp only [Region.contains, List.any_cons]
  cases hm : b.mem px py <;> simp [hm]

theorem Region.overlapsBox_unionRect_self (r0 : Region) (x y w h : Int)
    (hw : 0 < w) (hh : 0 < h) :
    (r0.unionRect x y w h).overlapsBox ⟨x, y, x + w, y + h⟩ = true := by
  simp only [Region.unionRect, Region.overlapsBox, List.any_cons, Bool.or_eq_true]
  left
  simp only [PBox.overlaps, Bool.and_eq_true, decide_eq_true_eq]
  constructor <;> [skip; skip] <;> simp <;> omega

theorem shrinkRectsF_eval_basic (norm : Bool) :
    shrinkRectsF ((0 : Int) : ℚ) ((5 : Int) : ℚ) 10 ((0 : Int) : ℚ) ((5 : Int) : ℚ) 10 norm =
      ⟨false, ((0 : Int) : ℚ), ((5 : Int) : ℚ), ((0 : Int) : ℚ), ((5 : Int) : ℚ)⟩ := by
  simp only [shrinkRectsF]
  rw [if_pos (by constructor <;> norm_num)]

theorem shrinkRectsI_eval_basic : shrinkRectsI 0 5 10 0 5 10 = ⟨false, 0, 5, 0, 5⟩ := by
  have c0 : cround ((0 : Int) : ℚ) = 0 := cround_nonneg_int 0 le_rfl
  have c5 : cround ((5 : Int) : ℚ) = 5 := cround_nonneg_int 5 (by norm_num)
  unfold shrinkRectsI
  simp only [shrinkRectsF_eval_basic, Bool.not_false, if_true, c0, c5]
  rfl

theorem touches_init_false (use32 : Bool) (r : IntRect) :
    (TaintState.init use32).touchesTaintedArea r = false := by
  cases use32 <;> rfl

theorem stretchBltOutcome_eval (ctx : BltCtx) (destRect sourceRect : IntRect)
    (opacity : Int) (rx ry : ShrinkResultI)
    (h1 : ctx.selfDisposed = false) (h2 : ctx.srcDisposed = false)
    (h3 : ctx.selfHasHires = false) (h4 : ctx.srcHasHires = false)
    (hrx : shrinkRectsI sourceRect.x sourceRect.w ctx.srcWidth
      destRect.x destRect.w ctx.selfWidth = rx)
    (hry : shrinkRectsI sourceRect.y sourceRect.h ctx.srcHeight
      destRect.y destRect.h ctx.selfHeight = ry)
    (hop : ¬ clampI opacity 0 255 = 0)
    (hrxret : rx.ret = false) (hryret : ry.ret = false) :
    stretchBltOutcome ctx destRect sourceRect opacity =
      (if ctx.selfIsMega = true then
        BltOutcome.mutated .cpuMega ⟨rx.destPos, ry.destPos, rx.destLen, ry.destLen⟩
      else if ¬ctx.srcIsMega = true ∧ clampI opacity 0 255 = 255 ∧
          ctx.taint.touchesTaintedArea ⟨rx.destPos, ry.destPos, rx.destLen, ry.destLen⟩ = false then
        BltOutcome.mutated .fastGpu ⟨rx.destPos, ry.destPos, rx.destLen, ry.destLen⟩
      else if ctx.srcIsMega = true ∧
          (if ctx.srcIsMega = true ∧
              ((rx.sourceLen > ctx.maxTexSize ∨ ry.sourceLen > ctx.maxTexSize) ∨
               (ctx.srcWidth > ctx.maxTexSize ∨ ctx.srcHeight > ctx.maxTexSize))
            then (255 : Int) else clampI opacity 0 255) = 255 ∧
          ctx.taint.touchesTaintedArea ⟨rx.destPos, ry.destPos, rx.destLen, ry.destLen⟩ = false then
        BltOutcome.mutated .gpuUploadDirect ⟨rx.destPos, ry.destPos, rx.destLen, ry.destLen⟩
      else
        BltOutcome.mutated .shaderComposite ⟨rx.destPos, ry.destPos, rx.destLen, ry.destLen⟩) := by
  simp only [stretchBltOutcome, h1, h2, h3, h4, hrx, hry, hrxret, hryret,
    Bool.false_eq_true, if_false]
  rw [if_neg hop]

theorem stretchBltOutcome_plain_eval :
    stretchBltOutcome plainCtx ⟨0, 0, 5, 5⟩ ⟨0, 0, 5, 5⟩ 255 =
      .mutated .fastGpu ⟨0, 0, 5, 5⟩ := by
  rw [stretchBltOutcome_eval plainCtx ⟨0, 0, 5, 5⟩ ⟨0, 0, 5, 5⟩ 255
    ⟨false, 0, 5, 0, 5⟩ ⟨false, 0, 5, 0, 5⟩ rfl rfl rfl rfl
    shrinkRectsI_eval_basic shrinkRectsI_eval_basic (by decide) rfl rfl]
  decide

theorem stretchBltOutcome_megaSrc_eval :
    stretchBltOutcome megaSrcCtx ⟨0, 0, 5, 5⟩ ⟨0, 0, 5, 5⟩ 255 =
      .mutated .gpuUploadDirect ⟨0, 0, 5, 5⟩ := by
  rw [stretchBltOutcome_eval megaSrcCtx ⟨0, 0, 5, 5⟩ ⟨0, 0, 5, 5⟩ 255
    ⟨false, 0, 5, 0, 5⟩ ⟨false, 0, 5, 0, 5⟩ rfl rfl rfl rfl
    shrinkRectsI_eval_basic shrinkRectsI_eval_basic (by decide) rfl rfl]
  decide

theorem bltEffectiveOpacity_eq (ctx : BltCtx) (dR sR : IntRect) (o : Int) :
    bltEffectiveOpacity ctx dR sR o =
      (if ctx.srcIsMega = true ∧
          (((shrinkRectsI sR.x sR.w ctx.srcWidth
              dR.x dR.w ctx.selfWidth).sourceLen > ctx.maxTexSize ∨
            (shrinkRectsI sR.y sR.h ctx.srcHeight
              dR.y dR.h ctx.selfHeight).sourceLen > ctx.maxTexSize) ∨
           (ctx.srcWidth > ctx.maxTexSize ∨ ctx.srcHeight > ctx.maxTexSize))
        then (255 : Int) else clampI o 0 255) := rfl

theorem stretchBltOutcome_disposed (ctx : BltCtx) (dR sR : IntRect) (o : Int)
    (h : ctx.selfDisposed = true) :
    stretchBltOutcome ctx dR sR o = .raisedDisposed := by
  unfold stretchBltOutcome
  rw [if_pos h]

theorem stretchBltOutcome_srcDisposed (ctx : BltCtx) (dR sR : IntRect) (o : Int)
    (h1 : ctx.selfDisposed = false) (h : ctx.srcDisposed = true) :
    stretchBltOutcome ctx dR sR o = .returnedEarly := by
  unfold stretchBltOutcome
  simp only [h1, Bool.false_eq_true, if_false]
  rw [if_pos h]

theorem stretchBltOutcome_selfHires (ctx : BltCtx) (dR sR : IntRect) (o : Int)
    (h1 : ctx.selfDisposed = false) (h2 : ctx.srcDisposed = false)
    (h : ctx.selfHasHires = true) :
    stretchBltOutcome ctx dR sR o = .forwardedHires := by
  unfold stretchBltOutcome
  simp only [h1, h2, Bool.false_eq_true, if_false]
  rw [if_pos h]

theorem stretchBltOutcome_srcHires (ctx : BltCtx) (dR sR : IntRect) (o : Int)
    (h1 : ctx.selfDisposed = false) (h2 : ctx.srcDisposed = false)
    (h3 : ctx.selfHasHires = false) (h : ctx.srcHasHires = true) :
    stretchBltOutcome ctx dR sR o = .forwardedHires := by
  unfold stretchBltOutcome
  simp only [h1, h2, h3, Bool.false_eq_true, if_false]
  rw [if_pos h]

theorem stretchBltOutcome_opacityZero (ctx : BltCtx) (dR sR : IntRect) (o : Int)
    (h1 : ctx.selfDisposed = false) (h2 : ctx.srcDisposed = false)
    (h3 : ctx.selfHasHires = false) (h4 : ctx.srcHasHires = false)
    (hop : clampI o 0 255 = 0) :
    stretchBltOutcome ctx dR sR o = .returnedEarly := by
  unfold stretchBltOutcome
  simp only [h1, h2, h3, h4, Bool.false_eq_true, if_false]
  rw [if_pos hop]

theorem stretchBltOutcome_clipX (ctx : BltCtx) (dR sR : IntRect) (o : Int)
    (h1 : ctx.selfDisposed = false) (h2 : ctx.srcDisposed = false)
    (h3 : ctx.selfHasHires = false) (h4 : ctx.srcHasHires = false)
    (hop : ¬ clampI o 0 255 = 0)
    (hrx : (shrinkRectsI sR.x sR.w ctx.srcWidth dR.x dR.w ctx.selfWidth).ret = true) :
    stretchBltOutcome ctx dR sR o = .returnedEarly := by
  unfold stretchBltOutcome
  simp only [h1, h2, h3, h4, Bool.false_eq_true, if_false]
  rw [if_neg hop, if_pos hrx]

theorem stretchBltOutcome_clipY (ctx : BltCtx) (dR sR : IntRect) (o : Int)
    (h1 : ctx.selfDisposed = false) (h2 : ctx.srcDisposed = false)
    (h3 : ctx.selfHasHires = false) (h4 : ctx.srcHasHires = false)
    (hop : ¬ clampI o 0 255 = 0)
    (hrx : ¬ (shrinkRectsI sR.x sR.w ctx.srcWidth dR.x dR.w ctx.selfWidth).ret = true)
    (hry : (shrinkRectsI sR.y sR.h ctx.srcHeight dR.y dR.h ctx.selfHeight).ret = true) :
    stretchBltOutcome ctx dR sR o = .returnedEarly := by
  unfold stretchBltOutcome
  simp only [h1, h2, h3, h4, Bool.false_eq_true, if_false]
  rw [if_neg hop, if_neg hrx, if_pos hry]

theorem clampI_bounds (v lo hi : Int) (h : lo ≤ hi) :
    lo ≤ clampI v lo hi ∧ clampI v lo hi ≤ hi := by
  unfold clampI
  split_ifs <;> omega

theorem wrapRange_bounds (v lo hi : Int) (h : lo < hi) :
    lo ≤ wrapRange v lo hi ∧ wrapRange v lo hi < hi := by
  unfold wrapRange
  have h1 := Int.emod_nonneg (v - lo) (by omega : hi - lo ≠ 0)
  have h2 := Int.emod_lt_of_pos (v - lo) (by omega : 0 < hi - lo)
  omega

theorem childN1_fst (s : ChildPanState) :
    (childN1 s).1 = if s.updateNeeded ∨ childCondX s then childCompX s else s.parentPos.1 :=
  rfl

theorem childN1_snd (s : ChildPanState) :
    (childN1 s).2 = if s.updateNeeded ∨ childCondY s then childCompY s else s.parentPos.2 :=
  rfl

theorem childPanUpdate_parentPos_fst (s : ChildPanState) :
    (childPanUpdate s).parentPos.1 = s.parentPos.1 ∨
    (childPanUpdate s).parentPos.1 = childCompX s := by
  simp only [childPanUpdate]
  split_ifs with h1 h2
  · rw [childN1_fst]
    split_ifs with h3
    · right; rfl
    · left; rfl
  · left; rfl
  · right; rfl

theorem childPanUpdate_parentPos_snd (s : ChildPanState) :
    (childPanUpdate s).parentPos.2 = s.parentPos.2 ∨
    (childPanUpdate s).parentPos.2 = childCompY s := by
  simp only [childPanUpdate]
  split_ifs with h1 h2
  · rw [childN1_snd]
    split_ifs with h3
    · right; rfl
    · left; rfl
  · left; rfl
  · right; rfl

theorem childCompX_bounds (s : ChildPanState) (hw : s.wrap = false)
    (hlt : s.selfWidth < s.srcW) :
    0 ≤ childCompX s ∧ childCompX s ≤ s.srcW - s.selfWidth := by
  unfold childCompX
  rw [if_pos (by rw [hw]; simp)]
  have h := clampI_bounds (if s.selfWidth ≥ s.srcW then 0
    else childArOX s - Int.tdiv (childOverflowX s) 2) 0
    (max (s.srcW - s.selfWidth) 0) (by omega)
  omega

theorem childCompY_bounds (s : ChildPanState) (hw : s.wrap = false)
    (hlt : s.selfHeight < s.srcH) :
    0 ≤ childCompY s ∧ childCompY s ≤ s.srcH - s.selfHeight := by
  unfold childCompY
  rw [if_pos (by rw [hw]; simp)]
  have h := clampI_bounds (if s.selfHeight ≥ s.srcH then 0
    else childArOY s - Int.tdiv (childOverflowY s) 2) 0
    (max (s.srcH - s.selfHeight) 0) (by omega)
  omega

theorem childPanUpdate_render_wrap (s : ChildPanState) (hw : s.wrap = true)
    (hu : (childPanUpdate s).updateNeeded = true) :
    (childPanUpdate s).renderPos =
      (wrapRange (childPanUpdate s).newParentPos.1 0 s.srcW,
       wrapRange (childPanUpdate s).newParentPos.2 0 s.srcH) := by
  simp only [childPanUpdate] at hu ⊢
  split_ifs at hu ⊢ <;> simp_all

/-! ## Claim theorems -/

/-- Claim C2, counterexample: `add(r)` followed by `subtract(r)` does
not return the tracker to its pre-`add` state.  From the state tracking
the unit square at the origin, adding and then subtracting that same
square leaves the region empty (the source's
`pixman_region_subtract(&tainted, &m_reg, &tainted)` computes
`rect − region`), so the point (0,0) is lost. -/
theorem taint_add_subtract_not_inverse :
    taintBase.activeContains 0 0 = true ∧ taintRoundtrip.activeContains 0 0 = false := by
  constructor <;> decide

/-- Claim C2 (amended): for every valid rectangle with positive width
and height and every tracker state, `add(r)` then `touches(r)` is "not
fully out" (true); `add(r)` then `subtract(r)` leaves the tracked region
empty — hence it returns to the pre-`add` state exactly when that state
was empty, and in particular the empty-baseline round trip holds — and
on an empty region `touches` of any rectangle is "fully out" (false).
This holds in both the 16-bit and the 32-bit coordinate modes (the
hypothesis `hvalid` keeps 16-bit-mode coordinates representable). -/
theorem taint_tracker_ops_spec (s : TaintState) (rect : IntRect)
    (hw : 0 < rect.w) (hh : 0 < rect.h)
    (hvalid : s.pixmanUseRegion32 = false →
      -32768 ≤ rect.x ∧ rect.x + rect.w ≤ 32767 ∧
      -32768 ≤ rect.y ∧ rect.y + rect.h ≤ 32767) :
    (s.addTaintedArea rect).touchesTaintedArea rect = true ∧
    (∀ px py, ((s.addTaintedArea rect).substractTaintedArea rect).activeContains px py = false) ∧
    (∀ (use32 : Bool) (r : IntRect), (TaintState.init use32).touchesTaintedArea r = false) := by
  have hnorm := normalizedRect_of_pos rect hw.le hh.le
  have htouch : (s.addTaintedArea rect).touchesTaintedArea rect = true := by
    unfold TaintState.addTaintedArea TaintState.touchesTaintedArea
    rw [hnorm]
    cases h32 : s.pixmanUseRegion32 <;>
      simp [Region.overlapsBox_unionRect_self _ _ _ _ _ hw hh]
  refine ⟨htouch, ?_, ?_⟩
  · intro px py
    unfold TaintState.substractTaintedArea
    rw [htouch]
    simp only [Bool.not_true, Bool.false_eq_true, if_false]
    unfold TaintState.addTaintedArea
    rw [hnorm]
    cases h32 : s.pixmanUseRegion32
    · simp only [h32, Bool.false_eq_true, if_false, TaintState.activeContains,
        Region.unionRect, Region.contains_subtract_union]
    · simp only [h32, if_true, TaintState.activeContains, Region.unionRect,
        Region.contains_subtract_union]
  · intro use32 r
    cases use32 <;> rfl

/-- Witness for `taint_tracker_ops_spec`: the 32-bit-mode empty tracker
and the rectangle (2, 3, 4, 5). -/
theorem taint_tracker_ops_spec_witness :
    ((TaintState.init true).addTaintedArea ⟨2, 3, 4, 5⟩).touchesTaintedArea ⟨2, 3, 4, 5⟩ = true ∧
    (∀ px py, (((TaintState.init true).addTaintedArea ⟨2, 3, 4, 5⟩).substractTaintedArea
      ⟨2, 3, 4, 5⟩).activeContains px py = false) ∧
    (∀ (use32 : Bool) (r : IntRect), (TaintState.init use32).touchesTaintedArea r = false) :=
  taint_tracker_ops_spec (TaintState.init true) ⟨2, 3, 4, 5⟩ (by decide) (by decide)
    (by intro h; simp [TaintState.init] at h)

/-- Claim C3, code-bug evaluation: `seek` clamps to
`[0, frames.size()]` (upper bound `frames.size()`, not
`frames.size() - 1`), so on a stopped 5-frame animation
`gotoAndStop(5)` leaves `lastFrame = 5` and the subsequent
current-frame lookup `frames[currentFrameI()] = frames[5]` is out of
bounds for the 5-element frame list. -/
theorem gotoAndStop_seek_out_of_range :
    (animBitmap5.gotoAndStop 5).map (fun b => b.animation.lastFrame) = .ok 5 ∧
    (animBitmap5.gotoAndStop 5).map (fun b => b.animation.currentFrameI) = .ok 5 ∧
    animBitmap5.animation.frames.length = 5 ∧
    ¬ ((5 : Int) < (animBitmap5.animation.frames.length : Int)) := by
  refine ⟨rfl, rfl, by decide, by decide⟩

/-- Claim C4: for a playing animation (timer settled, `fps > 0`,
`n ≥ 1` frames, nonnegative resume frame and elapsed play time), the
current frame index is `floor(lastFrame + t·fps)` modulo `n` when
looping, and clamped to `n − 1` (i.e. `min raw (n−1)`) when not looping,
freezing on the last frame rather than erroring.  The source computes
`playTime / (1 / fps)`, which over `ℚ` equals `playTime * fps`. -/
theorem currentFrameI_playing_spec (a : AnimationState)
    (hplay : a.playing = true) (hreset : a.needsReset = false)
    (hfps : 0 < a.fps) (hn : 0 < a.frames.length)
    (hlast : 0 ≤ a.lastFrame) (ht : 0 ≤ a.playTime) :
    a.currentFrameI =
      if a.loop then ⌊(a.lastFrame : ℚ) + a.playTime * a.fps⌋ % (a.frames.length : Int)
      else min ⌊(a.lastFrame : ℚ) + a.playTime * a.fps⌋ ((a.frames.length : Int) - 1) := by
  have hraw : a.currentFrameIRaw = ⌊(a.lastFrame : ℚ) + a.playTime * a.fps⌋ := by
    unfold AnimationState.currentFrameIRaw
    rw [if_neg (not_le.mpr hfps), div_eq_mul_inv, one_div, inv_inv]
  have hnn : 0 ≤ ⌊(a.lastFrame : ℚ) + a.playTime * a.fps⌋ := by
    apply Int.floor_nonneg.mpr
    have h1 : (0 : ℚ) ≤ (a.lastFrame : ℚ) := by exact_mod_cast hlast
    have h2 : (0 : ℚ) ≤ a.playTime * a.fps := mul_nonneg ht hfps.le
    linarith
  unfold AnimationState.currentFrameI
  rw [hplay, hreset, hraw]
  simp only [Bool.not_true, Bool.or_false, Bool.false_eq_true, if_false]
  cases hl : a.loop
  · simp only [Bool.false_eq_true, if_false]
    split_ifs with hgt <;> omega
  · simp only [if_true]
    exact Int.tmod_eq_emod hnn (by exact_mod_cast hn.le)

/-- Witness for `currentFrameI_playing_spec`: with `lastFrame = 0`,
`fps = 10`, 5 frames, looping, the current frame 0.45 s into playback is
`⌊4.5⌋ mod 5 = 4`; without looping, 10 s into playback it clamps to
frame 4. -/
theorem currentFrameI_playing_spec_witness :
    anim5At045.currentFrameI = 4 ∧ anim5NoLoopAt10.currentFrameI = 4 := by
  constructor
  · rw [currentFrameI_playing_spec anim5At045 rfl rfl (by norm_num [anim5At045, anim5])
      (by decide) (by decide) (by norm_num [anim5At045, anim5])]
    show (⌊((0 : Int) : ℚ) + (9/20 : ℚ) * 10⌋ : Int) % ((5 : ℕ) : Int) = 4
    norm_num [Int.floor_eq_iff]
  · rw [currentFrameI_playing_spec anim5NoLoopAt10 rfl rfl
      (by norm_num [anim5NoLoopAt10, anim5]) (by decide) (by decide)
      (by norm_num [anim5NoLoopAt10, anim5])]
    show min (⌊((0 : Int) : ℚ) + (10 : ℚ) * 10⌋ : Int) (((5 : ℕ) : Int) - 1) = 4
    norm_num

/-- Claim C5: for a non-disposed destination and non-disposed source
(without hi-res mirrors, which forward the call), `stretchBlt` with a
source rectangle lying entirely outside the source bitmap's bounds on
either axis returns before any write to the destination's pixels, its
tainted region or its cached CPU surface. -/
theorem stretchBlt_source_outside_noop (ctx : BltCtx) (destRect sourceRect : IntRect)
    (opacity : Int)
    (h1 : ctx.selfDisposed = false) (h2 : ctx.srcDisposed = false)
    (h3 : ctx.selfHasHires = false) (h4 : ctx.srcHasHires = false)
    (h5 : 0 < ctx.srcWidth) (h6 : 0 < ctx.srcHeight)
    (hout : axisOutside sourceRect.x sourceRect.w ctx.srcWidth ∨
            axisOutside sourceRect.y sourceRect.h ctx.srcHeight) :
    stretchBltOutcome ctx destRect sourceRect opacity = .returnedEarly := by
  unfold stretchBltOutcome
  simp only [h1, h2, h3, h4, Bool.false_eq_true, if_false]
  by_cases hop : clampI opacity 0 255 = 0
  · rw [if_pos hop]
  · rw [if_neg hop]
    rcases hout with hx | hy
    · rw [if_pos (shrinkRectsI_outside _ _ _ _ _ _ h5 hx)]
    · by_cases hrx : (shrinkRectsI sourceRect.x sourceRect.w ctx.srcWidth
          destRect.x destRect.w ctx.selfWidth).ret = true
      · rw [if_pos hrx]
      · rw [if_neg hrx, if_pos (shrinkRectsI_outside _ _ _ _ _ _ h6 hy)]

/-- Witness for `stretchBlt_source_outside_noop`: a 10×10 destination
and source, source rectangle starting at x = 20 (entirely right of the
source bitmap). -/
theorem stretchBlt_source_outside_noop_witness :
    stretchBltOutcome plainCtx ⟨0, 0, 5, 5⟩ ⟨20, 0, 5, 5⟩ 255 = .returnedEarly :=
  stretchBlt_source_outside_noop plainCtx ⟨0, 0, 5, 5⟩ ⟨20, 0, 5, 5⟩ 255 rfl rfl rfl rfl
    (by decide) (by decide)
    (Or.inl (Or.inr (by unfold axisStart; decide)))

/-- Claim C6, counterexample to its second half: with a plain-texture
destination, a mega (CPU-surface) source, clamped opacity 255 and an
untainted destination, `stretchBlt` does not composite through the
shader — it takes the direct pixel-upload branch. -/
theorem stretchBlt_mega_source_not_shader :
    stretchBltOutcome megaSrcCtx ⟨0, 0, 5, 5⟩ ⟨0, 0, 5, 5⟩ 255 =
      .mutated .gpuUploadDirect ⟨0, 0, 5, 5⟩ ∧
    BltPath.gpuUploadDirect ≠ BltPath.shaderComposite := by
  exact ⟨stretchBltOutcome_megaSrc_eval, by decide⟩

/-- Claim C6 (amended): once `stretchBlt` reaches the paint stage on a
non-mega destination, the direct non-blended GPU-to-GPU copy is taken
exactly when the source has no CPU surface, the clamped opacity is 255
and the clipped destination rectangle does not touch the destination's
tainted region; every other such case goes through the composite
else-branch, which uploads the source pixels directly (without the
shader) exactly when the source is a mega/CPU surface at effective
opacity 255 (opacity after the oversized-source pre-pass bakes reduced
opacity in) onto an untainted destination, and composites through the
shader in exactly the remaining cases. -/
theorem stretchBlt_dispatch_spec (ctx : BltCtx) (destRect sourceRect : IntRect)
    (opacity : Int) (path : BltPath) (dr : IntRect)
    (hmega : ctx.selfIsMega = false)
    (hmut : stretchBltOutcome ctx destRect sourceRect opacity = .mutated path dr) :
    (path = .fastGpu ↔
      (ctx.srcIsMega = false ∧ clampI opacity 0 255 = 255 ∧
        ctx.taint.touchesTaintedArea dr = false)) ∧
    ((path = .gpuUploadDirect ∨ path = .shaderComposite) ↔
      ¬(ctx.srcIsMega = false ∧ clampI opacity 0 255 = 255 ∧
        ctx.taint.touchesTaintedArea dr = false)) ∧
    (path = .gpuUploadDirect ↔
      (ctx.srcIsMega = true ∧
        bltEffectiveOpacity ctx destRect sourceRect opacity = 255 ∧
        ctx.taint.touchesTaintedArea dr = false)) ∧
    (path = .shaderComposite ↔
      (¬(ctx.srcIsMega = false ∧ clampI opacity 0 255 = 255 ∧
          ctx.taint.touchesTaintedArea dr = false) ∧
       ¬(ctx.srcIsMega = true ∧
          bltEffectiveOpacity ctx destRect sourceRect opacity = 255 ∧
          ctx.taint.touchesTaintedArea dr = false))) := by
  by_cases hd : ctx.selfDisposed = true
  · rw [stretchBltOutcome_disposed ctx destRect sourceRect opacity hd] at hmut
    exact absurd hmut (fun h => BltOutcome.noConfusion h)
  rw [Bool.not_eq_true] at hd
  by_cases hs : ctx.srcDisposed = true
  · rw [stretchBltOutcome_srcDisposed ctx destRect sourceRect opacity hd hs] at hmut
    exact absurd hmut (fun h => BltOutcome.noConfusion h)
  rw [Bool.not_eq_true] at hs
  by_cases hh1 : ctx.selfHasHires = true
  · rw [stretchBltOutcome_selfHires ctx destRect sourceRect opacity hd hs hh1] at hmut
    exact absurd hmut (fun h => BltOutcome.noConfusion h)
  rw [Bool.not_eq_true] at hh1
  by_cases hh2 : ctx.srcHasHires = true
  · rw [stretchBltOutcome_srcHires ctx destRect sourceRect opacity hd hs hh1 hh2] at hmut
    exact absurd hmut (fun h => BltOutcome.noConfusion h)
  rw [Bool.not_eq_true] at hh2
  by_cases hop : clampI opacity 0 255 = 0
  · rw [stretchBltOutcome_opacityZero ctx destRect sourceRect opacity hd hs hh1 hh2 hop] at hmut
    exact absurd hmut (fun h => BltOutcome.noConfusion h)
  by_cases hrx : (shrinkRectsI sourceRect.x sourceRect.w ctx.srcWidth
      destRect.x destRect.w ctx.selfWidth).ret = true
  · rw [stretchBltOutcome_clipX ctx destRect sourceRect opacity hd hs hh1 hh2 hop hrx] at hmut
    exact absurd hmut (fun h => BltOutcome.noConfusion h)
  by_cases hry : (shrinkRectsI sourceRect.y sourceRect.h ctx.srcHeight
      destRect.y destRect.h ctx.selfHeight).ret = true
  · rw [stretchBltOutcome_clipY ctx destRect sourceRect opacity hd hs hh1 hh2 hop hrx hry] at hmut
    exact absurd hmut (fun h => BltOutcome.noConfusion h)
  rw [Bool.not_eq_true] at hrx hry
  rw [stretchBltOutcome_eval ctx destRect sourceRect opacity _ _ hd hs hh1 hh2 rfl rfl
    hop hrx hry] at hmut
  rw [if_neg (by rw [hmega]; simp)] at hmut
  by_cases hfast : ¬ctx.srcIsMega = true ∧ clampI opacity 0 255 = 255 ∧
      ctx.taint.touchesTaintedArea
        ⟨(shrinkRectsI sourceRect.x sourceRect.w ctx.srcWidth
            destRect.x destRect.w ctx.selfWidth).destPos,
         (shrinkRectsI sourceRect.y sourceRect.h ctx.srcHeight
            destRect.y destRect.h ctx.selfHeight).destPos,
         (shrinkRectsI sourceRect.x sourceRect.w ctx.srcWidth
            destRect.x destRect.w ctx.selfWidth).destLen,
         (shrinkRectsI sourceRect.y sourceRect.h ctx.srcHeight
            destRect.y destRect.h ctx.selfHeight).destLen⟩ = false
  · rw [if_pos hfast] at hmut
    injection hmut with hpath hdr
    subst hpath
    subst hdr
    obtain ⟨hfast1, hfast2, hfast3⟩ := hfast
    refine ⟨?_, ?_, ?_, ?_⟩
    · simp only [true_iff]
      exact ⟨by simpa using hfast1, hfast2, hfast3⟩
    · constructor
      · rintro (h | h) <;> exact absurd h (by simp)
      · intro h
        exact absurd ⟨by simpa using hfast1, hfast2, hfast3⟩ h
    · constructor
      · intro h; exact absurd h (by simp)
      · rintro ⟨hm1, _, _⟩
        exact absurd hm1 hfast1
    · constructor
      · intro h; exact absurd h (by simp)
      · rintro ⟨hc, _⟩
        exact absurd ⟨by simpa using hfast1, hfast2, hfast3⟩ hc
  · rw [if_neg hfast] at hmut
    have hnotfast : ¬(ctx.srcIsMega = false ∧ clampI opacity 0 255 = 255 ∧
        ctx.taint.touchesTaintedArea
          ⟨(shrinkRectsI sourceRect.x sourceRect.w ctx.srcWidth
              destRect.x destRect.w ctx.selfWidth).destPos,
           (shrinkRectsI sourceRect.y sourceRect.h ctx.srcHeight
              destRect.y destRect.h ctx.selfHeight).destPos,
           (shrinkRectsI sourceRect.x sourceRect.w ctx.srcWidth
              destRect.x destRect.w ctx.selfWidth).destLen,
           (shrinkRectsI sourceRect.y sourceRect.h ctx.srcHeight
              destRect.y destRect.h ctx.selfHeight).destLen⟩ = false) := by
      intro hc
      exact hfast ⟨by simp [hc.1], hc.2.1, hc.2.2⟩
    by_cases hup : ctx.srcIsMega = true ∧
        (if ctx.srcIsMega = true ∧
            (((shrinkRectsI sourceRect.x sourceRect.w ctx.srcWidth
                destRect.x destRect.w ctx.selfWidth).sourceLen > ctx.maxTexSize ∨
              (shrinkRectsI sourceRect.y sourceRect.h ctx.srcHeight
                destRect.y destRect.h ctx.selfHeight).sourceLen > ctx.maxTexSize) ∨
             (ctx.srcWidth > ctx.maxTexSize ∨ ctx.srcHeight > ctx.maxTexSize))
          then (255 : Int) else clampI opacity 0 255) = 255 ∧
        ctx.taint.touchesTaintedArea
          ⟨(shrinkRectsI sourceRect.x sourceRect.w ctx.srcWidth
              destRect.x destRect.w ctx.selfWidth).destPos,
           (shrinkRectsI sourceRect.y sourceRect.h ctx.srcHeight
              destRect.y destRect.h ctx.selfHeight).destPos,
           (shrinkRectsI sourceRect.x sourceRect.w ctx.srcWidth
              destRect.x destRect.w ctx.selfWidth).destLen,
           (shrinkRectsI sourceRect.y sourceRect.h ctx.srcHeight
              destRect.y destRect.h ctx.selfHeight).destLen⟩ = false
    · rw [if_pos hup] at hmut
      injection hmut with hpath hdr
      subst hpath
      subst hdr
      refine ⟨?_, ?_, ?_, ?_⟩
      · constructor
        · intro h; exact absurd h (by simp)
        · intro h; exact absurd h hnotfast
      · simp only [true_or, true_iff]
        exact hnotfast
      · simp only [true_iff]
        rw [bltEffectiveOpacity_eq]
        exact hup
      · constructor
        · intro h; exact absurd h (by simp)
        · rintro ⟨_, hnu⟩
          rw [bltEffectiveOpacity_eq] at hnu
          exact absurd hup hnu
    · rw [if_neg hup] at hmut
      injection hmut with hpath hdr
      subst hpath
      subst hdr
      refine ⟨?_, ?_, ?_, ?_⟩
      · constructor
        · intro h; exact absurd h (by simp)
        · intro h; exact absurd h hnotfast
      · simp only [or_true, true_iff]
        exact hnotfast
      · constructor
        · intro h; exact absurd h (by simp)
        · intro h
          rw [bltEffectiveOpacity_eq] at h
          exact absurd h hup
      · simp only [true_iff]
        refine ⟨hnotfast, ?_⟩
        rw [bltEffectiveOpacity_eq]
        exact hup

/-- Witness for `stretchBlt_dispatch_spec`: the plain context with a
fully-inside blit at opacity 255 takes the fast GPU path. -/
theorem stretchBlt_dispatch_spec_witness :
    (BltPath.fastGpu = BltPath.fastGpu ↔
      (plainCtx.srcIsMega = false ∧ clampI 255 0 255 = 255 ∧
        plainCtx.taint.touchesTaintedArea ⟨0, 0, 5, 5⟩ = false)) ∧
    ((BltPath.fastGpu = BltPath.gpuUploadDirect ∨ BltPath.fastGpu = BltPath.shaderComposite) ↔
      ¬(plainCtx.srcIsMega = false ∧ clampI 255 0 255 = 255 ∧
        plainCtx.taint.touchesTaintedArea ⟨0, 0, 5, 5⟩ = false)) ∧
    (BltPath.fastGpu = BltPath.gpuUploadDirect ↔
      (plainCtx.srcIsMega = true ∧
        bltEffectiveOpacity plainCtx ⟨0, 0, 5, 5⟩ ⟨0, 0, 5, 5⟩ 255 = 255 ∧
        plainCtx.taint.touchesTaintedArea ⟨0, 0, 5, 5⟩ = false)) ∧
    (BltPath.fastGpu = BltPath.shaderComposite ↔
      (¬(plainCtx.srcIsMega = false ∧ clampI 255 0 255 = 255 ∧
          plainCtx.taint.touchesTaintedArea ⟨0, 0, 5, 5⟩ = false) ∧
       ¬(plainCtx.srcIsMega = true ∧
          bltEffectiveOpacity plainCtx ⟨0, 0, 5, 5⟩ ⟨0, 0, 5, 5⟩ 255 = 255 ∧
          plainCtx.taint.touchesTaintedArea ⟨0, 0, 5, 5⟩ = false))) :=
  stretchBlt_dispatch_spec plainCtx ⟨0, 0, 5, 5⟩ ⟨0, 0, 5, 5⟩ 255 .fastGpu ⟨0, 0, 5, 5⟩ rfl
    stretchBltOutcome_plain_eval

/-- Claim C8: `blt` with a disposed source returns silently before any
work (in particular before `stretchBlt` and its destination mutation),
while `stretchBlt` invoked on a disposed destination raises the
disposed-access error before performing any work. -/
theorem blt_disposed_source_silent (ctx : BltCtx) (x y : Int) (rect : IntRect)
    (opacity : Int)
    (hself : ctx.selfDisposed = false) (hsrc : ctx.srcDisposed = true) :
    bltOutcome ctx x y rect opacity = .returnedEarly ∧
    (∀ (ctx' : BltCtx) (dR sR : IntRect) (o : Int),
      ctx'.selfDisposed = true → stretchBltOutcome ctx' dR sR o = .raisedDisposed) := by
  refine ⟨?_, ?_⟩
  · unfold bltOutcome
    rw [if_pos hsrc]
  · intro ctx' dR sR o h
    unfold stretchBltOutcome
    rw [if_pos h]

/-- Witness for `blt_disposed_source_silent`: a live destination and a
disposed 10×10 source. -/
theorem blt_disposed_source_silent_witness :
    bltOutcome disposedSrcCtx 0 0 ⟨0, 0, 5, 5⟩ 255 = .returnedEarly ∧
    (∀ (ctx' : BltCtx) (dR sR : IntRect) (o : Int),
      ctx'.selfDisposed = true → stretchBltOutcome ctx' dR sR o = .raisedDisposed) :=
  blt_disposed_source_silent disposedSrcCtx 0 0 ⟨0, 0, 5, 5⟩ 255 rfl rfl

/-- Claim C1, counterexample to its wrap half: for a wrapping child
(plane) with a forced update, source extent 100, child size 20 and a
10-pixel visible strip, the recomputed pan position is
`adjustedrealOX - overflowX/2 = 0 - 5 = -5` — stored into
`pChild->parentPos` without wrapping (the `wrapRange` of lines
1404–1410 is applied only to the local copy, after the store), so the
stored pan position lies outside `[0, 100)`. -/
theorem childPan_wrap_stored_out_of_range :
    (childPanUpdate panCounterexample).parentPos.1 = -5 ∧
    ¬(0 ≤ (childPanUpdate panCounterexample).parentPos.1 ∧
      (childPanUpdate panCounterexample).parentPos.1 < panCounterexample.srcW) := by
  constructor <;> decide

/-- Claim C1 (amended): on each axis with wrap mode off and the child's
effective size smaller than the source extent, the pan position stored
by `childUpdate` is either left at its previous value (when the
recompute condition does not fire) or freshly clamped into
`[0, srcExtent − childSize]`; in particular the bound is preserved
whenever it held before the call.  On wrap axes, whenever a re-render
occurs, the wrapped copy of the pan position used to assemble the blit
sub-rectangles lies within `[0, srcExtent)` — the stored `parentPos`
itself is not so constrained. -/
theorem childPan_pan_position_spec (s : ChildPanState)
    (hW : 0 < s.srcW) (hH : 0 < s.srcH) :
    (s.wrap = false → s.selfWidth < s.srcW →
      ((childPanUpdate s).parentPos.1 = s.parentPos.1 ∨
       (0 ≤ (childPanUpdate s).parentPos.1 ∧
        (childPanUpdate s).parentPos.1 ≤ s.srcW - s.selfWidth))) ∧
    (s.wrap = false → s.selfHeight < s.srcH →
      ((childPanUpdate s).parentPos.2 = s.parentPos.2 ∨
       (0 ≤ (childPanUpdate s).parentPos.2 ∧
        (childPanUpdate s).parentPos.2 ≤ s.srcH - s.selfHeight))) ∧
    (s.wrap = true → (childPanUpdate s).updateNeeded = true →
      (0 ≤ (childPanUpdate s).renderPos.1 ∧ (childPanUpdate s).renderPos.1 < s.srcW ∧
       0 ≤ (childPanUpdate s).renderPos.2 ∧ (childPanUpdate s).renderPos.2 < s.srcH)) := by
  refine ⟨?_, ?_, ?_⟩
  · intro hw hlt
    rcases childPanUpdate_parentPos_fst s with h | h
    · exact Or.inl h
    · exact Or.inr (h ▸ childCompX_bounds s hw hlt)
  · intro hw hlt
    rcases childPanUpdate_parentPos_snd s with h | h
    · exact Or.inl h
    · exact Or.inr (h ▸ childCompY_bounds s hw hlt)
  · intro hw hu
    rw [childPanUpdate_render_wrap s hw hu]
    have h1 := wrapRange_bounds (childPanUpdate s).newParentPos.1 0 s.srcW hW
    have h2 := wrapRange_bounds (childPanUpdate s).newParentPos.2 0 s.srcH hH
    exact ⟨h1.1, h1.2, h2.1, h2.2⟩

/-- Witness for `childPan_pan_position_spec`: the wrapping
counterexample configuration (its render position is wrapped into
bounds even though the stored one is not). -/
theorem childPan_pan_position_spec_witness :
    (panCounterexample.wrap = false → panCounterexample.selfWidth < panCounterexample.srcW →
      ((childPanUpdate panCounterexample).parentPos.1 = panCounterexample.parentPos.1 ∨
       (0 ≤ (childPanUpdate panCounterexample).parentPos.1 ∧
        (childPanUpdate panCounterexample).parentPos.1 ≤
          panCounterexample.srcW - panCounterexample.selfWidth))) ∧
    (panCounterexample.wrap = false → panCounterexample.selfHeight < panCounterexample.srcH →
      ((childPanUpdate panCounterexample).parentPos.2 = panCounterexample.parentPos.2 ∨
       (0 ≤ (childPanUpdate panCounterexample).parentPos.2 ∧
        (childPanUpdate panCounterexample).parentPos.2 ≤
          panCounterexample.srcH - panCounterexample.selfHeight))) ∧
    (panCounterexample.wrap = true → (childPanUpdate panCounterexample).updateNeeded = true →
      (0 ≤ (childPanUpdate panCounterexample).renderPos.1 ∧
       (childPanUpdate panCounterexample).renderPos.1 < panCounterexample.srcW ∧
       0 ≤ (childPanUpdate panCounterexample).renderPos.2 ∧
       (childPanUpdate panCounterexample).renderPos.2 < panCounterexample.srcH)) :=
  childPan_pan_position_spec panCounterexample (by decide) (by decide)

/-- Claim C7: promoting a live static (non-mega, non-animated) bitmap
to animation mode with `addFrame` (the existing texture becomes frame
0) and then removing the added frame with `removeFrame` demotes it back
to a static bitmap whose pixel content is exactly the content before
the promotion (the original texture is moved back into the plain
texture slot untouched). -/
theorem addFrame_removeFrame_roundtrip (b source : Bitmap) (frameRate : ℚ)
    (hd : b.disposed = false) (hm : b.megaSurface = none)
    (hh : b.selfHires = false) (ha : b.animation.enabled = false)
    (hframes : b.animation.frames = [])
    (hsd : source.disposed = false)
    (hw : source.width = b.width) (hhgt : source.height = b.height) :
    ((b.addFrame source (-1) frameRate).bind (fun p => p.1.removeFrame 1)).map
      (fun b₂ => (b₂.animation.enabled, b₂.gl.content)) =
    .ok (false, b.gl.content) := by
  cases hsurf : source.surface <;>
    simp [Bitmap.addFrame, Bitmap.removeFrame, hd, hm, hsd, ha, hframes, hsurf,
      hw, hhgt, clampI, Except.bind, Except.map]

/-- Witness for `addFrame_removeFrame_roundtrip`: two live 4×4 static
bitmaps. -/
theorem addFrame_removeFrame_roundtrip_witness :
    ((staticBitmap.addFrame srcBitmap (-1) 40).bind (fun p => p.1.removeFrame 1)).map
      (fun b₂ => (b₂.animation.enabled, b₂.gl.content)) =
    .ok (false, staticBitmap.gl.content) :=
  addFrame_removeFrame_roundtrip staticBitmap srcBitmap 40 rfl rfl rfl rfl rfl rfl rfl rfl

/-- Claim C9: on a live, non-mega, non-animated bitmap with a populated
CPU surface cache, `setPixel` with in-bounds coordinates keeps the
cache alive and patched in place: the cached pixel at `(x, y)` becomes
the clamped color bytes and every other cached pixel is unchanged
(`onModified(false)` skips the cache invalidation). -/
theorem setPixel_patches_cache (b : Bitmap) (x y : Int) (c : Color)
    (f : Int × Int → Pixel)
    (hd : b.disposed = false) (ha : b.animation.enabled = false)
    (hh : b.selfHires = false) (hm : b.megaSurface = none) (hs : b.surface = some f)
    (hb : 0 ≤ x ∧ x < b.width ∧ 0 ≤ y ∧ y < b.height) :
    (b.setPixel x y c).map (fun b' => b'.surface) =
      .ok (some (writePixel f x y
        (clampByte c.red, clampByte c.green, clampByte c.blue, clampByte c.alpha))) ∧
    writePixel f x y
        (clampByte c.red, clampByte c.green, clampByte c.blue, clampByte c.alpha) (x, y) =
      (clampByte c.red, clampByte c.green, clampByte c.blue, clampByte c.alpha) ∧
    (∀ q : Int × Int, q ≠ (x, y) →
      writePixel f x y
        (clampByte c.red, clampByte c.green, clampByte c.blue, clampByte c.alpha) q = f q) := by
  refine ⟨?_, ?_, ?_⟩
  · simp [Bitmap.setPixel, hd, ha, hm, hs, Except.map]
  · simp [writePixel]
  · intro q hq
    simp [writePixel, hq]

/-- Witness for `setPixel_patches_cache`: the cached 4×4 bitmap,
writing color (300, −5, 10.5, 200) at (1, 2). -/
theorem setPixel_patches_cache_witness :
    (cachedBitmap.setPixel 1 2 ⟨300, -5, 21/2, 200⟩).map (fun b' => b'.surface) =
      .ok (some (writePixel (fun _ => (9, 9, 9, 9)) 1 2
        (clampByte 300, clampByte (-5), clampByte (21/2), clampByte 200))) ∧
    writePixel (fun _ => (9, 9, 9, 9)) 1 2
        (clampByte 300, clampByte (-5), clampByte (21/2), clampByte 200) (1, 2) =
      (clampByte 300, clampByte (-5), clampByte (21/2), clampByte 200) ∧
    (∀ q : Int × Int, q ≠ (1, 2) →
      writePixel (fun _ => (9, 9, 9, 9)) 1 2
        (clampByte 300, clampByte (-5), clampByte (21/2), clampByte 200) q =
        (fun _ : Int × Int => ((9 : ℕ), (9 : ℕ), (9 : ℕ), (9 : ℕ))) q) :=
  setPixel_patches_cache cachedBitmap 1 2 ⟨300, -5, 21/2, 200⟩ (fun _ => (9, 9, 9, 9))
    rfl rfl rfl rfl rfl (by decide)

/-- Claim C10: on a live, non-animated bitmap without a hi-res mirror,
`getPixel` with out-of-bounds coordinates returns the fully transparent
zero color without raising an error and without modifying the bitmap's
state (the early return precedes the `createSurface` cache
population). -/
theorem getPixel_oob_transparent (b : Bitmap) (x y : Int)
    (hd : b.disposed = false) (ha : b.animation.enabled = false)
    (hh : b.selfHires = false)
    (hoob : x < 0 ∨ y < 0 ∨ x ≥ b.width ∨ y ≥ b.height) :
    b.getPixel x y = .ok (⟨0, 0, 0, 0⟩, b) := by
  unfold Bitmap.getPixel
  rw [if_neg (by simp [hd]), if_neg (by simp [ha]), if_pos hoob]

/-- Witness for `getPixel_oob_transparent`: reading at (−1, 0) from the
4×4 static bitmap. -/
theorem getPixel_oob_transparent_witness :
    staticBitmap.getPixel (-1) 0 = .ok (⟨0, 0, 0, 0⟩, staticBitmap) :=
  getPixel_oob_transparent staticBitmap (-1) 0 rfl rfl rfl (Or.inl (by decide))

end MkxpBitmap
